/-
Verification of the MOZA stalks-to-ETS2 bridge (main.py).

Shallow embedding of the button-event decoder, the turn-signal automation
state machine, the output reconciler and the connection supervisor, with
theorems settling the specification claims.
-/
import Mathlib

/-- The mutable program state: the MOZAStalksMonitor running variables plus
the two module-level globals light_state and wiper_state.  Timestamps
(values of time.time()) are modelled as integers in milliseconds, an exact
rescaling of the source's seconds under which every comparison against the
0.15 s cooldown constant is preserved. -/
structure MState where
  indicator_state : Int
  blink_count : Int
  autodisable : Bool
  left_cooldown : Bool
  right_cooldown : Bool
  last_turnsignal_time : Int
  prev_blinker_state : Bool
  light_state : Int
  wiper_state : Int
  rain_sensor : Bool
deriving DecidableEq

/-- The telemetry snapshot fields read by proccess_game_data; a missing
dict key defaults to false in the source, so plain Bool fields suffice. -/
structure Snapshot where
  blinkerLeftActive : Bool
  blinkerLeftOn : Bool
  blinkerRightActive : Bool
  blinkerRightOn : Bool
  lightsHazards : Bool
  lightsParking : Bool
  lightsBeamLow : Bool
deriving DecidableEq

/-- The 0.15 s switch_cooldown constant, in milliseconds. -/
def switch_cooldown : Int := 150

def autodisable_blinks : Int := 3

def autodisable_threshold : Int := 1

/-- on_button_press, translated branch by branch from the source if/elif
chain.  now is the value of time.time() at the call. -/
def on_button_press (now : Int) (button_id : Nat) (s : MState) : MState :=
  let passed_cooldown := now - s.last_turnsignal_time > switch_cooldown
  if button_id = 7 then
    if !passed_cooldown then { s with right_cooldown := true }
    else
      let s1 := if s.indicator_state ≠ 1 then
          { s with blink_count := 0, prev_blinker_state := false } else s
      { s1 with indicator_state := 1, autodisable := false }
  else if button_id = 9 then
    if !passed_cooldown then { s with left_cooldown := true }
    else
      let s1 := if s.indicator_state ≠ -1 then
          { s with blink_count := 0, prev_blinker_state := false } else s
      { s1 with indicator_state := -1, autodisable := false }
  else if button_id = 8 then
    let s1 := { s with last_turnsignal_time := now,
                       left_cooldown := false, right_cooldown := false }
    if s1.blink_count < autodisable_threshold then
      { s1 with autodisable := true }
    else
      { s1 with autodisable := false, indicator_state := 0,
                blink_count := 0, prev_blinker_state := false }
  else if button_id = 0 then { s with light_state := 0 }
  else if button_id = 1 then { s with light_state := 1 }
  else if button_id = 2 then { s with light_state := 2 }
  else if button_id = 19 then { s with wiper_state := -1 }
  else if button_id = 20 then { s with wiper_state := 0 }
  else if button_id = 21 then { s with wiper_state := 1 }
  else if button_id = 22 then { s with wiper_state := 2 }
  else if button_id = 23 then { s with wiper_state := 3 }
  else s

/-- on_button_release: the source body is pass. -/
def on_button_release (_button_id : Nat) (s : MState) : MState := s

/-- The deferred-cooldown resolution at the top of proccess_game_data. -/
def cooldownResolve (now : Int) (s : MState) : MState :=
  if s.last_turnsignal_time < now - switch_cooldown then
    if s.right_cooldown then
      { s with indicator_state := 1, autodisable := false, right_cooldown := false }
    else if s.left_cooldown then
      { s with indicator_state := -1, autodisable := false, left_cooldown := false }
    else s
  else s

/-- The blinker_state expression of proccess_game_data, with Python
precedence preserved: and binds tighter than or, so the hazards conjunct
attaches only to the right-hand disjunct. -/
def blinkerObserved (d : Snapshot) (indicator_state : Int) : Bool :=
  (d.blinkerLeftActive && d.blinkerLeftOn && (indicator_state == -1)) ||
  (d.blinkerRightActive && d.blinkerRightOn && (indicator_state == 1)
    && !d.lightsHazards)

/-- The observed-blinker flag as the specification words it: hazards not
engaged gates both directions.  Used to compare against blinkerObserved. -/
def blinkerObservedSpec (d : Snapshot) (indicator_state : Int) : Bool :=
  ((d.blinkerLeftActive && d.blinkerLeftOn && (indicator_state == -1)) ||
   (d.blinkerRightActive && d.blinkerRightOn && (indicator_state == 1)))
  && !d.lightsHazards

/-- The state-machine part of proccess_game_data: deferred-cooldown
resolution, then falling-edge blink counting with the auto-disable check,
then the unconditional prev_blinker_state update. -/
def gameStateStep (now : Int) (d : Snapshot) (s : MState) : MState :=
  let s1 := cooldownResolve now s
  let blinker_state := blinkerObserved d s1.indicator_state
  let s2 :=
    if s1.prev_blinker_state && !blinker_state && s1.indicator_state ≠ 0 then
      let bc := s1.blink_count + 1
      if s1.autodisable && bc ≥ autodisable_blinks then
        { s1 with indicator_state := 0, autodisable := false, blink_count := 0 }
      else
        { s1 with blink_count := bc }
    else s1
  { s2 with prev_blinker_state := blinker_state }

/-- One input consumed by the state machine: a button press at a given
time, or one proccess_game_data pass over a vehicle snapshot. -/
inductive Act
  | press (now : Int) (button_id : Nat)
  | game (now : Int) (d : Snapshot)
deriving DecidableEq

def stepAct (s : MState) : Act → MState
  | Act.press now button_id => on_button_press now button_id s
  | Act.game now d => gameStateStep now d s

def runActs (s : MState) (acts : List Act) : MState := acts.foldl stepAct s

/-- The state after __init__ (light_state = 2 and wiper_state = 0 are the
module-global initial values). -/
def initState : MState :=
  { indicator_state := 0, blink_count := 0, autodisable := false,
    left_cooldown := false, right_cooldown := false,
    last_turnsignal_time := 0, prev_blinker_state := false,
    light_state := 2, wiper_state := 0, rain_sensor := false }

/-- The SCSController output attributes written by the program. -/
structure Controller where
  lblinker : Bool
  rblinker : Bool
  light : Bool
  wipersback : Bool
  wipers0 : Bool
  wipers1 : Bool
  tripreset : Bool
deriving DecidableEq

/-- A pulse emitted by proccess_game_data: an output (or pair of outputs)
set high, held for the 50 ms settle time, then set low again. -/
inductive Pulse
  | indicators (l r : Bool)
  | lightToggle
deriving DecidableEq

/-- reset_wipers: set the four wiper outputs to false. -/
def reset_wipers (c : Controller) : Controller :=
  { c with wipersback := false, wipers0 := false, wipers1 := false,
           tripreset := false }

/-- The light level the snapshot reports, as computed in the source:
beam low wins over parking. -/
def current_light_state (d : Snapshot) : Int :=
  if d.lightsBeamLow then 2 else if d.lightsParking then 1 else 0

/-- The indicator block of the output reconciler.  A pulse writes the
should_set values, sleeps, then writes false to both blinker outputs, so
the controller ends the block with both blinker outputs low; without a
pulse the outputs are untouched. -/
def reconcileIndicators (d : Snapshot) (indicator_state : Int)
    (c : Controller) : Controller × List Pulse :=
  let left_active := d.blinkerLeftActive
  let right_active := d.blinkerRightActive
  let left_on := d.blinkerLeftOn
  let right_on := d.blinkerRightOn
  let left_should_be_active := indicator_state == -1
  let right_should_be_active := indicator_state == 1
  let lblinker_should_set := false
  let rblinker_should_set := false
  let lr :=
    if indicator_state == -1 then
      let l0 := left_should_be_active && !left_active
      let l1 := if !left_should_be_active && left_active then true else l0
      (l1, rblinker_should_set)
    else if indicator_state == 1 then
      let r0 := right_should_be_active && !right_active
      let r1 := if !right_should_be_active && right_active then true else r0
      (lblinker_should_set, r1)
    else if indicator_state == 0 then
      (if left_active then true else lblinker_should_set,
       if right_active then true else rblinker_should_set)
    else (lblinker_should_set, rblinker_should_set)
  if (lr.1 || lr.2) && !(left_on || right_on) then
    ({ c with lblinker := false, rblinker := false },
     [Pulse.indicators lr.1 lr.2])
  else (c, [])

/-- The light block of the output reconciler: pulse the cycling light
output when the snapshot's light level differs from the desired
light_state global.  The source updates no state afterwards. -/
def reconcileLights (d : Snapshot) (light_state : Int)
    (c : Controller) : Controller × List Pulse :=
  if current_light_state d ≠ light_state then
    ({ c with light := false }, [Pulse.lightToggle])
  else (c, [])

/-- The wiper block of the output reconciler, translated statement by
statement from the source (the rain-sensor gate, then the if/elif chain
on wiper_state, each arm resetting all four outputs before setting one). -/
def reconcileWipers (wiper_state : Int) (rain_sensor : Bool)
    (c : Controller) : Controller :=
  let c1 :=
    if rain_sensor && wiper_state == 0 then
      { reset_wipers c with wipersback := true }
    else
      { c with wipersback := false }
  if wiper_state == 0 && !rain_sensor then
    { reset_wipers c1 with tripreset := true }
  else if wiper_state == 1 then
    { reset_wipers c1 with wipersback := true }
  else if wiper_state == 2 then
    { reset_wipers c1 with wipers0 := true }
  else if wiper_state == 3 then
    { reset_wipers c1 with wipers1 := true }
  else if wiper_state == -1 then
    { reset_wipers c1 with wipers0 := true }
  else c1

/-- The whole output-reconciliation half of proccess_game_data: the
indicator block, then the light block, then the wiper block, returning
the final controller output levels and the pulses emitted on the way. -/
def reconcile (d : Snapshot) (indicator_state light_state wiper_state : Int)
    (rain_sensor : Bool) (c : Controller) : Controller × List Pulse :=
  let ip := reconcileIndicators d indicator_state c
  let lp := reconcileLights d light_state ip.1
  (reconcileWipers wiper_state rain_sensor lp.1, ip.2 ++ lp.2)

/-- A button event produced by the report differ. -/
structure BEvent where
  button_id : Nat
  pressed : Bool
deriving DecidableEq

/-- The bit extraction used in process_device_data: shift the byte right
and mask the lowest bit. -/
def bitOf (byte bit : Nat) : Nat := (byte >>> bit) &&& 1

/-- The inner bit loop of process_device_data for one byte position:
compare the bytes, and on a difference emit one event per flipped bit,
bit 0 first. -/
def byteEvents (i old_byte new_byte : Nat) : List BEvent :=
  if old_byte ≠ new_byte then
    (List.range 8).filterMap fun bit =>
      if bitOf old_byte bit ≠ bitOf new_byte bit then
        some { button_id := i * 8 + bit, pressed := bitOf new_byte bit == 1 }
      else none
  else []

/-- The byte loop of process_device_data: zip the previous and current
reports (Python zip truncates at the shorter) and collect the per-byte
events in ascending byte order; i is the index of the first byte. -/
def diffBytes (i : Nat) : List Nat → List Nat → List BEvent
  | [], _ => []
  | _, [] => []
  | o :: os, n :: ns => byteEvents i o n ++ diffBytes (i + 1) os ns

/-- process_device_data as a function: given the stored last_state and
the fresh report, return the emitted events and the new last_state.
When last_state is absent the report is only stored. -/
def process_device_data (last_state : Option (List Nat))
    (device_data : List Nat) : List BEvent × List Nat :=
  match last_state with
  | none => ([], device_data)
  | some old => (diffBytes 0 old device_data, device_data)

/-- Which processing stages one monitor-loop cycle runs. -/
inductive Stage
  | deviceProc
  | gameProc
deriving DecidableEq

/-- The dispatch in the body of monitor_loop: process_device_data and
proccess_game_data run only when both the device read and the telemetry
fetch produced data; with device data alone only process_device_data
runs; with no device data nothing runs. -/
def cycleStages (device_data : Option (List Nat))
    (telemetry : Option Snapshot) : List Stage :=
  match device_data, telemetry with
  | some _, some _ => [Stage.deviceProc, Stage.gameProc]
  | some _, none => [Stage.deviceProc]
  | none, _ => []

/-- Connection-supervisor state: the connected flag and the consecutive
read-error counter. -/
structure ConnState where
  connected : Bool
  read_error_count : Nat
deriving DecidableEq

def max_read_errors : Nat := 5

/-- The OSError branch of monitor_loop: bump the error counter and force
a disconnect once it reaches max_read_errors. -/
def readErrorStep (c : ConnState) : ConnState :=
  let n := c.read_error_count + 1
  if n ≥ max_read_errors then { connected := false, read_error_count := n }
  else { c with read_error_count := n }

/-- The tail of a successful monitor-loop cycle: the error counter is
reset to 0. -/
def readSuccessStep (c : ConnState) : ConnState :=
  { c with read_error_count := 0 }

/-- k consecutive failing read cycles. -/
def errRun (c : ConnState) : Nat → ConnState
  | 0 => c
  | k + 1 => readErrorStep (errRun c k)

/-- A snapshot with every flag false. -/
def quietSnapshot : Snapshot :=
  { blinkerLeftActive := false, blinkerLeftOn := false,
    blinkerRightActive := false, blinkerRightOn := false,
    lightsHazards := false, lightsParking := false, lightsBeamLow := false }

/-- Hazards engaged while the left indicator light is active and lit. -/
def hazardLeftSnapshot : Snapshot :=
  { blinkerLeftActive := true, blinkerLeftOn := true,
    blinkerRightActive := false, blinkerRightOn := false,
    lightsHazards := true, lightsParking := false, lightsBeamLow := false }

/-- Hazards engaged while the right indicator light is active and lit. -/
def hazardRightSnapshot : Snapshot :=
  { blinkerLeftActive := false, blinkerLeftOn := false,
    blinkerRightActive := true, blinkerRightOn := true,
    lightsHazards := true, lightsParking := false, lightsBeamLow := false }

/-- Right indicator active and lit, hazards off. -/
def blinkOnSnapshot : Snapshot :=
  { blinkerLeftActive := false, blinkerLeftOn := false,
    blinkerRightActive := true, blinkerRightOn := true,
    lightsHazards := false, lightsParking := false, lightsBeamLow := false }

/-- Right indicator active but momentarily unlit (the off phase of the
blink cycle), hazards off. -/
def blinkOffSnapshot : Snapshot :=
  { blinkerLeftActive := false, blinkerLeftOn := false,
    blinkerRightActive := true, blinkerRightOn := false,
    lightsHazards := false, lightsParking := false, lightsBeamLow := false }

/-- A reachable state with a pending left cooldown flag, nonzero
blink_count and the right indicator active (press right at t = 1 s, cancel
at t = 2 s, press left at t = 2.05 s, then one observed blink-off edge). -/
def pendingLeftState : MState :=
  { indicator_state := 1, blink_count := 1, autodisable := true,
    left_cooldown := true, right_cooldown := false,
    last_turnsignal_time := 2000, prev_blinker_state := false,
    light_state := 2, wiper_state := 0, rain_sensor := false }

/-- A reachable state in which both cooldown flags are pending (cancel at
t = 2 s, then a right press and a left press inside the window). -/
def pendingBothState : MState :=
  { pendingLeftState with right_cooldown := true }

/-- Press right at t = 1 s, cancel at t = 2 s (arms autodisable), press
left at t = 2.05 s (deferred into the cooldown flag), observe one blink
on/off cycle, then one more cycle after the cooldown window elapsed. -/
def c4acts : List Act :=
  [Act.press 1000 7, Act.press 2000 8, Act.press 2050 9,
   Act.game 2100 blinkOnSnapshot, Act.game 2150 blinkOffSnapshot,
   Act.game 2300 blinkOffSnapshot]

/-- The button ids handled by on_button_press. -/
def handled_buttons : List Nat := [0, 1, 2, 7, 8, 9, 19, 20, 21, 22, 23]

/-- The blink-count part of the spec invariant: blink_count is zero
whenever IndicatorState is Off, and is never negative. -/
def blinkInv (s : MState) : Prop :=
  (s.indicator_state = 0 → s.blink_count = 0) ∧ 0 ≤ s.blink_count

/-- How many of the four mutually exclusive wiper outputs are held true. -/
def wiperOutputsOn (c : Controller) : Nat :=
  (if c.wipersback then 1 else 0) + (if c.tripreset then 1 else 0) +
  (if c.wipers0 then 1 else 0) + (if c.wipers1 then 1 else 0)

/-- The controller with every output low. -/
def controllerInit : Controller :=
  { lblinker := false, rblinker := false, light := false,
    wipersback := false, wipers0 := false, wipers1 := false,
    tripreset := false }

/-- nonDivergent means the vehicle snapshot agrees with the desired state:
each blinker's active flag matches the desired IndicatorState, and the
snapshot's light level equals the desired light_state.  This renders the
claim's unchanged, non-divergent-snapshot hypothesis. -/
def nonDivergent (d : Snapshot) (indicator_state light_state : Int) : Prop :=
  d.blinkerLeftActive = (indicator_state == -1) ∧
  d.blinkerRightActive = (indicator_state == 1) ∧
  current_light_state d = light_state

/-- C1: the hazards exclusion in the observed-blinker flag applies only to
the right-hand disjunct, because Python's and binds tighter than or.  With
IndicatorState = Left and the left light active and on while hazards are
engaged, the code computes the flag as true; the claim (and the code's own
right-direction case, shown for contrast) requires false whenever hazards
are engaged. -/
theorem c1_hazards_precedence :
    blinkerObserved hazardLeftSnapshot (-1) = true ∧
    blinkerObservedSpec hazardLeftSnapshot (-1) = false ∧
    blinkerObserved hazardRightSnapshot 1 = false ∧
    blinkerObservedSpec hazardRightSnapshot 1 = false := by decide

/-- C3 counterexample: a cycle whose telemetry fetch succeeded (the
snapshot is present) but whose device read returned no report runs
neither stage, so the vehicle-state-driven automation is skipped even
though a vehicle snapshot is available. -/
theorem c3_counterexample :
    (some quietSnapshot).isSome = true ∧
    Stage.gameProc ∉ cycleStages none (some quietSnapshot) := by decide

/-- C3 amended: automation and output reconciliation run exactly in the
cycles where both a device report and a vehicle snapshot are available,
regardless of the report's content (so also when no button event
occurred); in a telemetry-failure cycle the device report is still
processed while automation and reconciliation are skipped; in a cycle
with no device report nothing is processed at all. -/
theorem c3_cycle_stages :
    (∀ (r : List Nat) (d : Snapshot),
      cycleStages (some r) (some d) = [Stage.deviceProc, Stage.gameProc]) ∧
    (∀ r : List Nat, cycleStages (some r) none = [Stage.deviceProc]) ∧
    (∀ t : Option Snapshot, cycleStages none t = []) :=
  ⟨fun _ _ => rfl, fun _ => rfl, fun t => by cases t <;> rfl⟩

/-- C2 counterexample: resolving the pending left flag after the cooldown
window changes the direction to Left but leaves blink_count at 1, whereas
an immediate left press from the same state resets blink_count to 0 — the
deferred change is not applied exactly as an immediate press would be. -/
theorem c2_counterexample :
    (cooldownResolve 2300 pendingLeftState).indicator_state = -1 ∧
    (cooldownResolve 2300 pendingLeftState).blink_count = 1 ∧
    (on_button_press 2300 9 pendingLeftState).indicator_state = -1 ∧
    (on_button_press 2300 9 pendingLeftState).blink_count = 0 := by decide

/-- C4 counterexample: a reachable event sequence in which the deferred
cooldown resolution changes IndicatorState from Right to Left while
blink_count stays 1 — the direction changed without blink_count being
reset to 0. -/
theorem c4_counterexample :
    (runActs initState (c4acts.take 5)).indicator_state = 1 ∧
    (runActs initState (c4acts.take 5)).blink_count = 1 ∧
    (runActs initState c4acts).indicator_state = -1 ∧
    (runActs initState c4acts).blink_count = 1 := by decide

/-- C5: pressing the cancel/center button (id 8) records
last_turnsignal_time = now and clears both cooldown flags; if blink_count
is below the autodisable threshold (1) it sets autodisable and leaves
IndicatorState (and blink_count) unchanged, otherwise it sets
IndicatorState to Off and resets blink_count to 0. -/
theorem c5_cancel_button (now : Int) (s : MState) :
    (on_button_press now 8 s).last_turnsignal_time = now ∧
    (on_button_press now 8 s).left_cooldown = false ∧
    (on_button_press now 8 s).right_cooldown = false ∧
    (s.blink_count < autodisable_threshold →
      (on_button_press now 8 s).autodisable = true ∧
      (on_button_press now 8 s).indicator_state = s.indicator_state ∧
      (on_button_press now 8 s).blink_count = s.blink_count) ∧
    (autodisable_threshold ≤ s.blink_count →
      (on_button_press now 8 s).indicator_state = 0 ∧
      (on_button_press now 8 s).blink_count = 0 ∧
      (on_button_press now 8 s).autodisable = false) := by
  simp only [on_button_press]
  norm_num
  split_ifs with h <;> simp_all

/-- C5 witness: at the initial state (blink_count = 0 below the
threshold), pressing the cancel button arms autodisable. -/
theorem c5_cancel_button_witness :
    (on_button_press 500 8 initState).autodisable = true :=
  ((c5_cancel_button 500 initState).2.2.2.1 (by decide)).1

/-- C7: from a connected state with a clean counter, k consecutive failing
reads leave the supervisor connected exactly while k is below
max_read_errors (5) and carry the counter value k, so the transition to
Disconnected happens at exactly the fifth consecutive failure; any
successful read resets the counter to 0. -/
theorem c7_read_error_disconnect (c : ConnState) (k : Nat)
    (hc : c.connected = true) (h0 : c.read_error_count = 0) :
    errRun c k =
      { connected := decide (k < max_read_errors), read_error_count := k } ∧
    ∀ c2 : ConnState, (readSuccessStep c2).read_error_count = 0 := by
  obtain ⟨b, n⟩ := c
  simp only at hc h0
  subst hc h0
  refine ⟨?_, fun c2 => rfl⟩
  induction k with
  | zero => simp [errRun, max_read_errors]
  | succ k ih =>
      rw [errRun, ih, readErrorStep]
      simp only [max_read_errors] at *
      split_ifs with h <;> simp <;> omega

/-- C7 witness: the fifth consecutive read failure disconnects, the
fourth does not, and a successful read clears the counter. -/
theorem c7_read_error_disconnect_witness :
    errRun { connected := true, read_error_count := 0 } 5 =
      { connected := false, read_error_count := 5 } ∧
    errRun { connected := true, read_error_count := 0 } 4 =
      { connected := true, read_error_count := 4 } ∧
    (readSuccessStep { connected := true, read_error_count := 3
      }).read_error_count = 0 := by
  refine ⟨?_, ?_, ?_⟩
  · have h := (c7_read_error_disconnect ⟨true, 0⟩ 5 rfl rfl).1
    simpa using h
  · have h := (c7_read_error_disconnect ⟨true, 0⟩ 4 rfl rfl).1
    simpa using h
  · exact (c7_read_error_disconnect ⟨true, 0⟩ 0 rfl rfl).2 ⟨true, 3⟩

/-- C10: a press of any button id outside the handled set leaves the whole
program state unchanged, and a release of any button id always leaves it
unchanged. -/
theorem c10_unhandled_buttons (now : Int) (button_id : Nat) (s : MState)
    (h : button_id ∉ handled_buttons) :
    on_button_press now button_id s = s ∧
    ∀ (b : Nat) (s2 : MState), on_button_release b s2 = s2 := by
  have hh : button_id ≠ 0 ∧ button_id ≠ 1 ∧ button_id ≠ 2 ∧
      button_id ≠ 7 ∧ button_id ≠ 8 ∧ button_id ≠ 9 ∧ button_id ≠ 19 ∧
      button_id ≠ 20 ∧ button_id ≠ 21 ∧ button_id ≠ 22 ∧ button_id ≠ 23 := by
    simpa [handled_buttons, not_or] using h
  obtain ⟨h0, h1, h2, h7, h8, h9, h19, h20, h21, h22, h23⟩ := hh
  refine ⟨?_, fun b s2 => rfl⟩
  simp [on_button_press, h0, h1, h2, h7, h8, h9, h19, h20, h21, h22, h23]

/-- C10 witness: button 42 is unhandled and its press is a no-op. -/
theorem c10_unhandled_buttons_witness :
    on_button_press 1000 42 initState = initState :=
  (c10_unhandled_buttons 1000 42 initState (by decide)).1

/-- C2 amended: once the cooldown window has elapsed, a pending right flag
is resolved by setting IndicatorState to Right, clearing autodisable and
the flag while every other field — in particular blink_count and
prev_blinker_state — is left unchanged (so the resolution does not mirror
the blink_count reset an immediate press performs); a pending left flag is
resolved the same way only when no right flag is pending; when both flags
are pending, right is applied in that cycle, the left flag stays pending,
and left is applied on a later elapsed cycle, so left ends up as
IndicatorState. -/
theorem c2_deferred_resolution (now now2 : Int) (s : MState)
    (h : s.last_turnsignal_time < now - switch_cooldown)
    (h2 : s.last_turnsignal_time < now2 - switch_cooldown) :
    (s.right_cooldown = true →
      cooldownResolve now s =
        { s with indicator_state := 1, autodisable := false,
                 right_cooldown := false }) ∧
    (s.right_cooldown = false → s.left_cooldown = true →
      cooldownResolve now s =
        { s with indicator_state := -1, autodisable := false,
                 left_cooldown := false }) ∧
    (s.right_cooldown = true → s.left_cooldown = true →
      (cooldownResolve now s).indicator_state = 1 ∧
      (cooldownResolve now s).left_cooldown = true ∧
      (cooldownResolve now2 (cooldownResolve now s)).indicator_state = -1 ∧
      (cooldownResolve now2 (cooldownResolve now s)).right_cooldown = false ∧
      (cooldownResolve now2 (cooldownResolve now s)).left_cooldown = false) := by
  refine ⟨fun hr => ?_, fun hr hl => ?_, fun hr hl => ?_⟩
  · simp [cooldownResolve, h, hr]
  · simp [cooldownResolve, h, hr, hl]
  · simp [cooldownResolve, h, h2, hr, hl]

/-- C2 witness: with both flags pending, two elapsed resolution cycles end
with the left direction as IndicatorState. -/
theorem c2_deferred_resolution_witness :
    (cooldownResolve 2500
      (cooldownResolve 2300 pendingBothState)).indicator_state = -1 :=
  ((c2_deferred_resolution 2300 2500 pendingBothState (by decide)
    (by decide)).2.2 rfl rfl).2.2.1

lemma blinkInv_press (now : Int) (button_id : Nat) {s : MState}
    (h : blinkInv s) : blinkInv (on_button_press now button_id s) := by
  obtain ⟨h1, h2⟩ := h
  unfold blinkInv
  by_cases b7 : button_id = 7
  · subst b7
    simp only [on_button_press, reduceIte]
    split_ifs <;> simp_all
  by_cases b9 : button_id = 9
  · subst b9
    simp only [on_button_press, reduceIte]
    split_ifs <;> simp_all
  by_cases b8 : button_id = 8
  · subst b8
    simp only [on_button_press, reduceIte]
    split_ifs <;> simp_all
  simp only [on_button_press, if_neg b7, if_neg b9, if_neg b8]
  split_ifs <;> simp_all

lemma blinkInv_cooldownResolve (now : Int) {s : MState}
    (h : blinkInv s) : blinkInv (cooldownResolve now s) := by
  obtain ⟨h1, h2⟩ := h
  unfold blinkInv cooldownResolve
  split_ifs <;> simp_all

lemma blinkInv_game (now : Int) (d : Snapshot) {s : MState}
    (h : blinkInv s) : blinkInv (gameStateStep now d s) := by
  obtain ⟨g1, g2⟩ := blinkInv_cooldownResolve now h
  unfold blinkInv gameStateStep
  simp only []
  split_ifs with hedge hauto <;> simp_all
  omega

lemma blinkInv_run (acts : List Act) :
    ∀ {s : MState}, blinkInv s → blinkInv (runActs s acts) := by
  induction acts with
  | nil => intro s h; exact h
  | cons a rest ih =>
      intro s h
      have hstep : blinkInv (stepAct s a) := by
        cases a with
        | press now button_id => exact blinkInv_press now button_id h
        | game now d => exact blinkInv_game now d h
      exact ih hstep

/-- C4 amended: along every reachable sequence of button events and
vehicle snapshots, blink_count is nonzero only while IndicatorState is
not Off and it never becomes negative; an immediate (out-of-cooldown)
press that changes the direction resets blink_count to 0, but a deferred
cooldown resolution preserves blink_count, so a direction change through
the deferred path does not reset it. -/
theorem c4_blink_count :
    (∀ acts : List Act, blinkInv (runActs initState acts)) ∧
    (∀ (now : Int) (s : MState),
      now - s.last_turnsignal_time > switch_cooldown →
      s.indicator_state ≠ 1 →
      (on_button_press now 7 s).blink_count = 0 ∧
      (on_button_press now 7 s).indicator_state = 1) ∧
    (∀ (now : Int) (s : MState),
      now - s.last_turnsignal_time > switch_cooldown →
      s.indicator_state ≠ -1 →
      (on_button_press now 9 s).blink_count = 0 ∧
      (on_button_press now 9 s).indicator_state = -1) ∧
    (∀ (now : Int) (s : MState),
      (cooldownResolve now s).blink_count = s.blink_count) := by
  refine ⟨fun acts => blinkInv_run acts ⟨fun _ => rfl, by decide⟩,
    fun now s hcool hind => ?_, fun now s hcool hind => ?_, fun now s => ?_⟩
  · simp [on_button_press, hcool, hind]
  · simp [on_button_press, hcool, hind]
  · unfold cooldownResolve
    split_ifs <;> rfl

/-- C4 witness: the first right press resets blink_count, and the
invariant holds at the end of the concrete six-step sequence. -/
theorem c4_blink_count_witness :
    (on_button_press 1000 7 initState).blink_count = 0 ∧
    blinkInv (runActs initState c4acts) :=
  ⟨(c4_blink_count.2.1 1000 initState (by decide) (by decide)).1,
   c4_blink_count.1 c4acts⟩

lemma reconcileWipers_exclusive (wiper_state : Int) (rain_sensor : Bool)
    (c : Controller)
    (h : wiper_state = -1 ∨ wiper_state = 0 ∨ wiper_state = 1 ∨
         wiper_state = 2 ∨ wiper_state = 3) :
    wiperOutputsOn (reconcileWipers wiper_state rain_sensor c) ≤ 1 := by
  rcases h with h | h | h | h | h <;> subst h <;> cases rain_sensor <;>
    simp [reconcileWipers, reset_wipers, wiperOutputsOn]

/-- C8: for every wiper-state value of the WiperState enumeration, every
rain-sensor reading and every prior output assignment, the controller
state at the end of a reconciliation cycle holds at most one of the four
mutually exclusive wiper outputs true. -/
theorem c8_wiper_exclusion (d : Snapshot)
    (indicator_state light_state wiper_state : Int) (rain_sensor : Bool)
    (c : Controller)
    (h : wiper_state = -1 ∨ wiper_state = 0 ∨ wiper_state = 1 ∨
         wiper_state = 2 ∨ wiper_state = 3) :
    wiperOutputsOn
      (reconcile d indicator_state light_state wiper_state rain_sensor
        c).1 ≤ 1 := by
  unfold reconcile
  exact reconcileWipers_exclusive _ _ _ h

/-- C8 witness: a concrete reconciliation cycle holds at most one wiper
output true. -/
theorem c8_wiper_exclusion_witness :
    wiperOutputsOn (reconcile quietSnapshot 0 2 0 false controllerInit).1
      ≤ 1 :=
  c8_wiper_exclusion quietSnapshot 0 2 0 false controllerInit (by decide)

lemma reconcileIndicators_noop (d : Snapshot) (indicator_state : Int)
    (c : Controller)
    (hl : d.blinkerLeftActive = (indicator_state == -1))
    (hr : d.blinkerRightActive = (indicator_state == 1)) :
    reconcileIndicators d indicator_state c = (c, []) := by
  unfold reconcileIndicators
  by_cases e1 : indicator_state = -1
  · subst e1; simp_all
  · by_cases e2 : indicator_state = 1
    · subst e2; simp_all
    · by_cases e3 : indicator_state = 0
      · subst e3; simp_all
      · simp_all

lemma reconcileWipers_idem (wiper_state : Int) (rain_sensor : Bool)
    (c : Controller) :
    reconcileWipers wiper_state rain_sensor
      (reconcileWipers wiper_state rain_sensor c) =
      reconcileWipers wiper_state rain_sensor c := by
  unfold reconcileWipers reset_wipers
  split_ifs <;> rfl

/-- C9: with an unchanged desired state and an unchanged, non-divergent
vehicle snapshot, a reconciliation cycle emits no pulses, a second run
emits no pulses either, and the second run also leaves the controller
output levels exactly where the first run left them. -/
theorem c9_idempotent (d : Snapshot)
    (indicator_state light_state wiper_state : Int) (rain_sensor : Bool)
    (c : Controller) (h : nonDivergent d indicator_state light_state) :
    (reconcile d indicator_state light_state wiper_state rain_sensor
      c).2 = [] ∧
    (reconcile d indicator_state light_state wiper_state rain_sensor
      (reconcile d indicator_state light_state wiper_state rain_sensor
        c).1).2 = [] ∧
    (reconcile d indicator_state light_state wiper_state rain_sensor
      (reconcile d indicator_state light_state wiper_state rain_sensor
        c).1).1 =
      (reconcile d indicator_state light_state wiper_state rain_sensor
        c).1 := by
  obtain ⟨hl, hr, hlight⟩ := h
  have hi : ∀ c2, reconcileIndicators d indicator_state c2 = (c2, []) :=
    fun c2 => reconcileIndicators_noop d indicator_state c2 hl hr
  have hlt : ∀ c2 : Controller,
      reconcileLights d light_state c2 = (c2, []) := by
    intro c2
    simp [reconcileLights, hlight]
  simp [reconcile, hi, hlt, reconcileWipers_idem]

/-- C9 witness: a concrete converged cycle emits no pulses. -/
theorem c9_idempotent_witness :
    (reconcile quietSnapshot 0 0 1 false controllerInit).2 = [] :=
  (c9_idempotent quietSnapshot 0 0 1 false controllerInit
    ⟨rfl, rfl, rfl⟩).1

lemma mem_byteEvents {i o n : Nat} {e : BEvent} :
    e ∈ byteEvents i o n ↔
      ∃ b, b < 8 ∧ bitOf o b ≠ bitOf n b ∧
        e = { button_id := i * 8 + b, pressed := bitOf n b == 1 } := by
  unfold byteEvents
  by_cases h : o ≠ n
  · rw [if_pos h]
    simp only [List.mem_filterMap, List.mem_range]
    constructor
    · rintro ⟨b, hb, hf⟩
      split at hf
      · exact ⟨b, hb, by assumption, (Option.some.inj hf).symm⟩
      · cases hf
    · rintro ⟨b, hb, hd, he⟩
      exact ⟨b, hb, by rw [if_pos hd, he]⟩
  · push_neg at h
    subst h
    simp

lemma byteEvents_button_id_bounds {i o n : Nat} {e : BEvent}
    (h : e ∈ byteEvents i o n) :
    i * 8 ≤ e.button_id ∧ e.button_id < i * 8 + 8 := by
  obtain ⟨b, hb, _, he⟩ := mem_byteEvents.1 h
  subst he
  simp only []
  omega

lemma byteEvents_pairwise (i o n : Nat) :
    (byteEvents i o n).Pairwise fun a b => a.button_id < b.button_id := by
  unfold byteEvents
  split
  · refine List.Pairwise.filterMap _ ?_ (List.pairwise_lt_range 8)
    intro a a2 hlt x hx y hy
    split at hx
    · split at hy
      · cases Option.some.inj hx
        cases Option.some.inj hy
        simp only []
        omega
      · cases hy
    · cases hx
  · exact List.Pairwise.nil

lemma diffBytes_button_id_lb : ∀ (i : Nat) (os ns : List Nat) (e : BEvent),
    e ∈ diffBytes i os ns → i * 8 ≤ e.button_id := by
  intro i os
  induction os generalizing i with
  | nil => intro ns e h; simp [diffBytes] at h
  | cons o os ih =>
    intro ns e h
    cases ns with
    | nil => simp [diffBytes] at h
    | cons n ns =>
      rw [diffBytes] at h
      rcases List.mem_append.1 h with h1 | h2
      · exact (byteEvents_button_id_bounds h1).1
      · have hlow := ih (i + 1) ns e h2
        omega

lemma diffBytes_pairwise : ∀ (i : Nat) (os ns : List Nat),
    (diffBytes i os ns).Pairwise fun a b => a.button_id < b.button_id := by
  intro i os
  induction os generalizing i with
  | nil => intro ns; simp [diffBytes]
  | cons o os ih =>
    intro ns
    cases ns with
    | nil => simp [diffBytes]
    | cons n ns =>
      rw [diffBytes]
      refine List.pairwise_append.2
        ⟨byteEvents_pairwise i o n, ih (i + 1) ns, ?_⟩
      intro a ha b hb
      have h1 := (byteEvents_button_id_bounds ha).2
      have h2 := diffBytes_button_id_lb (i + 1) os ns b hb
      omega

lemma mem_diffBytes : ∀ (i : Nat) (os ns : List Nat) (e : BEvent),
    e ∈ diffBytes i os ns ↔
      ∃ j b, j < os.length ∧ j < ns.length ∧ b < 8 ∧
        bitOf (os.getD j 0) b ≠ bitOf (ns.getD j 0) b ∧
        e = { button_id := (i + j) * 8 + b,
              pressed := bitOf (ns.getD j 0) b == 1 } := by
  intro i os
  induction os generalizing i with
  | nil => intro ns e; simp [diffBytes]
  | cons o os ih =>
    intro ns e
    cases ns with
    | nil => simp [diffBytes]
    | cons n ns =>
      rw [diffBytes, List.mem_append, mem_byteEvents, ih (i + 1) ns e]
      constructor
      · rintro (⟨b, hb, hd, he⟩ | ⟨j, b, hj1, hj2, hb, hd, he⟩)
        · exact ⟨0, b, by simp, by simp, hb, by simpa using hd,
            by simpa using he⟩
        · refine ⟨j + 1, b, by simpa using hj1, by simpa using hj2, hb,
            by simpa using hd, ?_⟩
          have harith : (i + 1 + j) = i + (j + 1) := by omega
          rw [harith] at he
          simpa using he
      · rintro ⟨j, b, hj1, hj2, hb, hd, he⟩
        cases j with
        | zero =>
          exact Or.inl ⟨b, hb, by simpa using hd, by simpa using he⟩
        | succ j =>
          refine Or.inr ⟨j, b, by simpa using hj1, by simpa using hj2, hb,
            by simpa using hd, ?_⟩
          have harith : (i + (j + 1)) = i + 1 + j := by omega
          rw [harith] at he
          simpa using he

/-- C6: with no stored previous report the differ emits no events and
stores the current report as baseline regardless of its content; with a
previous report of equal length it emits an event exactly for each bit
position at which the two reports differ — Pressed when the new bit is 1,
Released when it is 0 — at button_id = byte_index * 8 + bit_index, and
the event list is ordered by ascending byte index then ascending bit
index (equivalently, strictly ascending button_id). -/
theorem c6_report_differ (old new : List Nat) (e : BEvent)
    (h : old.length = new.length) :
    (∀ r : List Nat, process_device_data none r = ([], r)) ∧
    (process_device_data (some old) new).2 = new ∧
    (e ∈ (process_device_data (some old) new).1 ↔
      ∃ j b, j < new.length ∧ b < 8 ∧
        bitOf (old.getD j 0) b ≠ bitOf (new.getD j 0) b ∧
        e = { button_id := j * 8 + b,
              pressed := bitOf (new.getD j 0) b == 1 }) ∧
    (process_device_data (some old) new).1.Pairwise
      (fun a b => a.button_id < b.button_id) := by
  refine ⟨fun r => rfl, rfl, ?_, diffBytes_pairwise 0 old new⟩
  rw [show (process_device_data (some old) new).1 = diffBytes 0 old new
    from rfl, mem_diffBytes]
  constructor
  · rintro ⟨j, b, hj1, hj2, hb, hd, he⟩
    exact ⟨j, b, hj2, hb, hd, by simpa using he⟩
  · rintro ⟨j, b, hj, hb, hd, he⟩
    exact ⟨j, b, by omega, hj, hb, hd, by simpa using he⟩

/-- C6 witness: diffing byte 0x00 against 0x03 in a one-byte report
emits the presses of buttons 0 and 1, strictly ordered. -/
theorem c6_report_differ_witness :
    BEvent.mk 0 true ∈ (process_device_data (some [0]) [3]).1 ∧
    (process_device_data (some [0]) [3]).1.Pairwise
      (fun a b => a.button_id < b.button_id) :=
  ⟨((c6_report_differ [0] [3] ⟨0, true⟩ rfl).2.2.1).mpr
    ⟨0, 0, by decide, by decide, by decide, by decide⟩,
   (c6_report_differ [0] [3] ⟨0, true⟩ rfl).2.2.2⟩
